import Mathlib

set_option linter.unusedVariables false

namespace OptCat

/-! Shallow embedding of pkg/sql/opt_catalog.go: the optimizer-facing catalog
adaptation layer. Source line references are to src/pkg/sql/opt_catalog.go. -/

/-- Kind of a catalog column (cat.ColumnKind as used at lines 630-638 and 670):
ordinary, write-only mutation, delete-only mutation, system, or synthesized
virtual (inverted-index key column). -/
inductive ColumnKind where
  | ordinary
  | writeOnly
  | deleteOnly
  | system
  | virtualKind
deriving DecidableEq

/-- A column of a raw table descriptor (descpb.ColumnDescriptor restricted to
the fields this layer reads at lines 627-650). The column type is abstracted
to a numeric payload; udtVersion is the version of the user-defined type of
the column, or none when the type is not user defined. -/
structure ColumnDesc where
  id : Nat
  name : String
  typ : Nat
  udtVersion : Option Nat
  nullable : Bool
  hidden : Bool
  defaultExpr : Option String
  computeExpr : Option String
deriving DecidableEq

/-- An index of a raw table descriptor (descpb.IndexDescriptor restricted to
the fields read at lines 686-735 and 1058-1120). inverted models
Type == descpb.IndexDescriptor_INVERTED. -/
structure IndexDesc where
  id : Nat
  name : String
  unique : Bool
  inverted : Bool
  columnIDs : List Nat
  extraColumnIDs : List Nat
  storeColumnIDs : List Nat
deriving DecidableEq

/-- A raw table descriptor (tabledesc.Immutable restricted to what the claims
need). columns are the public columns; writeOnlyCols and deleteOnlyCols are
the mutation columns, so that DeletableColumns = columns ++ writeOnlyCols ++
deleteOnlyCols and WritableColumns = columns ++ writeOnlyCols (lines 612,
625-626). indexes are the deletable secondary indexes (line 617). -/
structure TableDesc where
  id : Nat
  version : Nat
  columns : List ColumnDesc
  writeOnlyCols : List ColumnDesc
  deleteOnlyCols : List ColumnDesc
  primaryIndex : IndexDesc
  indexes : List IndexDesc
deriving DecidableEq

/-- A subzone of a zone config (zonepb.Subzone, read at lines 700-707):
applies to one index, and optionally only to one partition. The subzone
config payload is abstracted to one numeric field where 0 means unset. -/
structure Subzone where
  indexID : Nat
  partitionName : String
  config : Nat
deriving DecidableEq

/-- A zone (placement) config (zonepb.ZoneConfig), abstracted to one numeric
payload field plus its subzones. Deep equality (zonepb Equal, used at lines
851 and 899) is structural equality of this representation. -/
structure Zone where
  cfg : Nat
  subzones : List Subzone
deriving DecidableEq

/-- Modelled from the spec: zonepb.ZoneConfig.InheritFromParent (called at
line 704) is not under src; per spec 4.3 step 4 a whole-index subzone config
is inherited from and overrides the table zone. We model it as: the subzone
payload overrides when set (nonzero), otherwise the parent payload is kept;
the copied config carries no subzones of its own. No claim depends on the
particular combination, only on it being a deterministic pure function. -/
def inheritFromParent (config : Nat) (parent : Zone) : Zone :=
  if config = 0 then { cfg := parent.cfg, subzones := [] }
  else { cfg := config, subzones := [] }

/-- A pointer to a zone config: ptr models the Go pointer identity (used by
the pointer comparisons at line 896), val the pointed-to value. -/
structure ZoneRef where
  ptr : Nat
  val : Zone
deriving DecidableEq

/-- A raw table statistic (stats.TableStatistic restricted to the fields the
claims need: creation time and covered column IDs, lines 1297-1309). -/
structure TableStatistic where
  createdAt : Nat
  columnIDs : List Nat
deriving DecidableEq

/-- One element of a statistics snapshot slice: ptr models the address of the
slice element (the isStale identity fast path at line 848 compares the
addresses of the first elements of the two slices), stat the record. -/
structure StatRef where
  ptr : Nat
  stat : TableStatistic
deriving DecidableEq

/-- A built catalog column (cat.Column). InitNonVirtual and InitVirtual are
in the cat package (not under src); the fields mirror the arguments passed
at lines 640-650, 665-677 and 724-730. virtualSource is the back-reference
of a synthesized virtual column to the ordinal of its source column. -/
structure CatColumn where
  ordinal : Nat
  colID : Nat
  name : String
  kind : ColumnKind
  typ : Nat
  nullable : Bool
  hidden : Bool
  defaultExpr : Option String
  computeExpr : Option String
  virtualSource : Option Nat
deriving DecidableEq

instance : Inhabited CatColumn :=
  ⟨⟨0, 0, "", ColumnKind.ordinary, 0, false, false, none, none, none⟩⟩

/-- A built table statistic wrapper (optTableStat, lines 1274-1295): the
creation time of the raw statistic plus its column IDs translated to column
ordinals of the owning table. -/
structure OptTableStat where
  createdAt : Nat
  columnOrdinals : List Nat
deriving DecidableEq

/-- A built index wrapper (optIndex, lines 1034-1052). -/
structure OptIndex where
  idxDesc : IndexDesc
  zone : ZoneRef
  storedCols : List Nat
  indexOrdinal : Nat
  numCols : Nat
  numKeyCols : Nat
  numLaxKeyCols : Nat
  invertedVirtualColOrd : Int
deriving DecidableEq

/-- DeletableColumns (line 612): public columns followed by mutation
columns. -/
def deletableColumns (d : TableDesc) : List ColumnDesc :=
  d.columns ++ d.writeOnlyCols ++ d.deleteOnlyCols

/-- The column kind assigned at lines 630-638: ordinary below the public
column count, write-only below the writable column count, delete-only
after. -/
def columnKindAt (d : TableDesc) (i : Nat) : ColumnKind :=
  if i < d.columns.length then ColumnKind.ordinary
  else if i < d.columns.length + d.writeOnlyCols.length then ColumnKind.writeOnly
  else ColumnKind.deleteOnly

/-- Helper mapping a list with the index of each element. -/
def mapWithIndex (f : Nat → ColumnDesc → CatColumn) (l : List ColumnDesc) : List CatColumn :=
  (l.enum).map (fun p => f p.1 p.2)

/-- The non-virtual columns built at lines 624-651: one cat.Column per
deletable descriptor column, in order. -/
def initNonVirtualColumns (d : TableDesc) : List CatColumn :=
  mapWithIndex
    (fun i cd =>
      { ordinal := i, colID := cd.id, name := cd.name, kind := columnKindAt d i,
        typ := cd.typ, nullable := cd.nullable, hidden := cd.hidden,
        defaultExpr := cd.defaultExpr, computeExpr := cd.computeExpr,
        virtualSource := none })
    (deletableColumns d)

/-- Modelled from the spec: colinfo.MVCCTimestampColumnName (not under src),
the reserved name of the synthesized row-versioning system column. -/
def mvccTimestampColumnName : String := "crdb_internal_mvcc_timestamp"

/-- Modelled from the spec: colinfo.MVCCTimestampColumnID (not under src),
the reserved stable ID of the synthesized system column. -/
def mvccTimestampColumnID : Nat := 4294967295

/-- Modelled from the spec: colinfo.MVCCTimestampColumnType (not under src),
abstract type payload of the system column. -/
def mvccTimestampColumnType : Nat := 1

/-- Modelled from the spec: tabledesc FindColumnByName (called at line 664)
is not under src; it reports whether the descriptor contains a column with
the given name, searching public and mutation columns. -/
def findColumnByName (d : TableDesc) (nm : String) : Bool :=
  (deletableColumns d).any (fun c => c.name = nm)

/-- The system column appended at lines 665-677: ordinal at the end of the
current list, reserved ID and name, kind System, nullable and hidden both
true (the literal arguments at lines 672-673). -/
def mvccSystemColumn (ordinal : Nat) : CatColumn :=
  { ordinal := ordinal, colID := mvccTimestampColumnID,
    name := mvccTimestampColumnName, kind := ColumnKind.system,
    typ := mvccTimestampColumnType, nullable := true, hidden := true,
    defaultExpr := none, computeExpr := none, virtualSource := none }

/-- Lines 624-677: the deletable columns, then the MVCC timestamp system
column unless a column of that name already exists in the descriptor. -/
def columnsWithSystem (d : TableDesc) : List CatColumn :=
  let base := initNonVirtualColumns d
  if findColumnByName d mvccTimestampColumnName then base
  else base ++ [mvccSystemColumn base.length]

/-- Core of the colMap lookup. The Go map at lines 680-683 is filled in
ordinal order, so for duplicate column IDs the last ordinal wins; this
returns the index of the last matching column, offset by i. -/
def colMapGo : Nat → List CatColumn → Nat → Option Nat
  | _, [], _ => none
  | i, c :: cs, id =>
    match colMapGo (i + 1) cs id with
    | some j => some j
    | none => if c.colID = id then some i else none

/-- colMap lookup (lines 680-683, 1023-1030): ordinal of the column with the
given stable ID, none when absent. -/
def colMapLookup (cols : List CatColumn) (id : Nat) : Option Nat :=
  colMapGo 0 cols id

/-- lookupColumnOrdinal with the error ignored, as the callers at lines 713,
1094 and 1439 do: a failed lookup leaves the ordinal at its Go zero value
0. -/
def lookupOrdinalD (cols : List CatColumn) (id : Nat) : Nat :=
  (colMapLookup cols id).getD 0

/-- The notNull scan at lines 1092-1099: every declared key column of the
index, resolved through the colMap, is non-nullable. cols is the column
list the colMap was built over (line 680, before any virtual column is
appended); every ordinal consulted here is an ordinal of that list (or the
Go zero value 0 on a failed lookup), so reading from it coincides with
reading from the final column slice, of which it is a prefix. A Nat out of
range (impossible in Go, which would have panicked building the map) reads
as non-nullable. -/
def keyColsNotNull (cols : List CatColumn) (ids : List Nat) : Bool :=
  ids.all (fun id =>
    !((((cols.get? (lookupOrdinalD cols id))).map (fun c => c.nullable)).getD false))

/-- The key-column-count derivation of optIndex.init (lines 1091-1119),
returning (numLaxKeyCols, numKeyCols). -/
def optIndexKeyCols (cols : List CatColumn) (idx : IndexDesc) : Nat × Nat :=
  if idx.unique then
    if keyColsNotNull cols idx.columnIDs then
      (idx.columnIDs.length, idx.columnIDs.length)
    else
      (idx.columnIDs.length, idx.columnIDs.length + idx.extraColumnIDs.length)
  else
    (idx.columnIDs.length + idx.extraColumnIDs.length,
     idx.columnIDs.length + idx.extraColumnIDs.length)

/-- optIndex.init (lines 1058-1120). cols1 is the list the colMap was built
over; curCols is the column slice of the table at the time init runs (it
already contains any virtual column appended for this index). isPrimary
models the pointer comparison desc == tab.desc.PrimaryIndex at line 1070,
which holds exactly for index ordinal 0. -/
def optIndexInitModel (cols1 curCols : List CatColumn) (isPrimary : Bool)
    (ordinal : Nat) (idx : IndexDesc) (zone : ZoneRef)
    (invOrd : Int) : OptIndex :=
  let storedCols :=
    if isPrimary then
      (curCols.filter (fun c => !(idx.columnIDs.contains c.colID))).map (fun c => c.colID)
    else idx.storeColumnIDs
  let numCols :=
    if isPrimary then curCols.length
    else idx.columnIDs.length + idx.extraColumnIDs.length + idx.storeColumnIDs.length
  let lk := optIndexKeyCols cols1 idx
  { idxDesc := idx, zone := zone, storedCols := storedCols,
    indexOrdinal := ordinal, numCols := numCols,
    numKeyCols := lk.2, numLaxKeyCols := lk.1,
    invertedVirtualColOrd := invOrd }

/-- The per-index zone resolution at lines 699-707: start from the table
zone; for each subzone (in order) that names this index and no partition,
switch to a freshly allocated copy inheriting from the table zone. The
fresh pointer tblZone.ptr + 1 + i * n + j is distinct from tblZone.ptr and
from every other allocation of the same build, modelling the new Go stack
variable allocated per loop iteration. -/
def resolveIndexZone (tblZone : ZoneRef) (i : Nat) (idxID : Nat) : ZoneRef :=
  let n := tblZone.val.subzones.length
  (tblZone.val.subzones.enum).foldl
    (fun acc jsz =>
      if jsz.2.indexID = idxID ∧ jsz.2.partitionName = "" then
        { ptr := tblZone.ptr + 1 + i * n + jsz.1,
          val := inheritFromParent jsz.2.config tblZone.val }
      else acc)
    tblZone

/-- The virtual column appended for an inverted index at lines 713-730: it
derives from the column the first declared index column resolves to, takes
that column name suffixed with _inverted_key and that column type, is
non-nullable, and back-references the source ordinal. ColumnIDs[0] of an
empty inverted index would panic in Go; the model reads a default 0 there.
cols1 is the colMap base, cols the column slice at the time of the append
(the source ordinal is read through the colMap, so it points into cols1, a
prefix of cols). -/
def invertedVirtualColumn (cols1 cols : List CatColumn) (idx : IndexDesc) : CatColumn :=
  let srcOrd := lookupOrdinalD cols1 (idx.columnIDs.headD 0)
  let src := (cols.get? srcOrd).getD default
  { ordinal := cols.length, colID := 0,
    name := src.name ++ "_inverted_key", kind := ColumnKind.virtualKind,
    typ := src.typ, nullable := false, hidden := false,
    defaultExpr := none, computeExpr := none,
    virtualSource := some srcOrd }

/-- The index-building loop of newOptTable (lines 686-735), threading the
growing column slice: for an inverted index a virtual column deriving from
the first declared column is appended before the index is initialized
(lines 708-731). -/
def buildIndexesGo (cols1 : List CatColumn) (tblZone : ZoneRef) :
    Nat → List CatColumn → List IndexDesc → List CatColumn × List OptIndex
  | _, cols, [] => (cols, [])
  | i, cols, idx :: rest =>
    let idxZone := resolveIndexZone tblZone i idx.id
    if idx.inverted then
      let cols2 := cols ++ [invertedVirtualColumn cols1 cols idx]
      let oi := optIndexInitModel cols1 cols2 (i == 0) i idx idxZone (Int.ofNat cols.length)
      let r := buildIndexesGo cols1 tblZone (i + 1) cols2 rest
      (r.1, oi :: r.2)
    else
      let oi := optIndexInitModel cols1 cols (i == 0) i idx idxZone (-1)
      let r := buildIndexesGo cols1 tblZone (i + 1) cols rest
      (r.1, oi :: r.2)

/-- optTableStat.init (lines 1281-1295): translate the covered column IDs to
ordinals through the colMap; none when some column is no longer present (the
statistic is then silently dropped by the caller at lines 809-821). -/
def optTableStatInit (cols1 : List CatColumn) (s : TableStatistic) : Option OptTableStat :=
  (s.columnIDs.mapM (colMapLookup cols1)).map
    (fun ords => { createdAt := s.createdAt, columnOrdinals := ords })

/-- A built table wrapper (optTable, lines 546-594). addr models the Go
object identity used by the Equals fast path at line 867. colMapCols is the
column list the colMap was built over (line 680): the deletable columns plus
the possible system column, without virtual columns. -/
structure OptTable where
  addr : Nat
  tdesc : TableDesc
  columns : List CatColumn
  colMapCols : List CatColumn
  indexes : List OptIndex
  rawStats : List StatRef
  stats : List OptTableStat
  zone : ZoneRef
deriving DecidableEq

/-- newOptTable (lines 598-824), restricted to the parts the claims are
about: columns (ordinary, mutation, system, virtual), the colMap base, the
indexes with their per-index zones, and the statistics (raw snapshot kept
for the isStale identity check, plus translated wrappers with unresolvable
statistics silently dropped). Families, check constraints and foreign keys
are not modelled here; no claim relates them to the builder. -/
def newOptTable (addr : Nat) (d : TableDesc) (statsIn : List StatRef)
    (tblZone : ZoneRef) : OptTable :=
  let cols1 := columnsWithSystem d
  let built := buildIndexesGo cols1 tblZone 0 cols1 (d.primaryIndex :: d.indexes)
  { addr := addr, tdesc := d, columns := built.1, colMapCols := cols1,
    indexes := built.2, rawStats := statsIn,
    stats := statsIn.filterMap (fun r => optTableStatInit cols1 r.stat),
    zone := tblZone }

/-- Modelled from the spec: tabledesc UserDefinedTypeColsHaveSameVersion
(called at lines 855 and 886) is not under src; per spec 4.5 it reports
whether every column user-defined-type version is the same between the two
descriptors. -/
def userDefinedTypeColsHaveSameVersion (d1 d2 : TableDesc) : Bool :=
  ((deletableColumns d1).map (fun c => c.udtVersion))
    = ((deletableColumns d2).map (fun c => c.udtVersion))

/-- optTable.isStale (lines 836-859): stale when the statistics snapshot
lengths differ, or both snapshots are non-empty and the first elements live
at different addresses, or the new zone is not deeply equal to the cached
one, or some column user-defined-type version changed. -/
def OptTable.isStale (ot : OptTable) (rawDesc : TableDesc)
    (tableStats : List StatRef) (zone : ZoneRef) : Bool :=
  if tableStats.length ≠ ot.rawStats.length then true
  else if 0 < tableStats.length ∧
      (tableStats.head?.map (fun r => r.ptr)) ≠ (ot.rawStats.head?.map (fun r => r.ptr)) then true
  else if ¬ (zone.val = ot.zone.val) then true
  else if ¬ (userDefinedTypeColsHaveSameVersion ot.tdesc rawDesc = true) then true
  else false

/-- optTableStat.equals (lines 1297-1309): same creation time and same
column-ordinal sequence (the source compares lengths and then each ordinal
pairwise, which is list equality). -/
def optTableStatEquals (x y : OptTableStat) : Bool :=
  if x.createdAt ≠ y.createdAt ∨ x.columnOrdinals.length ≠ y.columnOrdinals.length then false
  else x.columnOrdinals = y.columnOrdinals

/-- The zone-comparison loop of optTable.Equals (lines 892-904), walking the
two index-zone lists with the previous compared pair of pointers carried for
the skip fast path. The loop in Go ranges over the left list and indexes the
right one, panicking when the right list is shorter: that case is none. -/
def zoneLoop (prevL prevR : Option ZoneRef) :
    List ZoneRef → List ZoneRef → Option Bool
  | [], _ => some true
  | _ :: _, [] => none
  | l :: ls, r :: rs =>
    if (prevL.map (fun z => z.ptr)) = some l.ptr ∧
        (prevR.map (fun z => z.ptr)) = some r.ptr then
      zoneLoop prevL prevR ls rs
    else if l.val = r.val then
      zoneLoop (some l) (some r) ls rs
    else some false

/-- Reference pairwise deep comparison of zone lists without the skip fast
path, used to state what the loop computes. -/
def zonesEqualSpec : List ZoneRef → List ZoneRef → Option Bool
  | [], _ => some true
  | _ :: _, [] => none
  | l :: ls, r :: rs =>
    if l.val = r.val then zonesEqualSpec ls rs else some false

/-- optTable.Equals (lines 862-907) between two built non-virtual tables:
pointer fast path, descriptor ID and version, statistics count and pairwise
equality, user-defined-type versions, then the per-index zone loop. The
result is none when the zone loop would panic (right table has fewer
indexes). -/
def optTableEquals (a b : OptTable) : Option Bool :=
  if a.addr = b.addr then some true
  else if a.tdesc.id ≠ b.tdesc.id ∨ a.tdesc.version ≠ b.tdesc.version then some false
  else if a.stats.length ≠ b.stats.length then some false
  else if ¬ ((a.stats.zip b.stats).all (fun p => optTableStatEquals p.1 p.2) = true) then
    some false
  else if ¬ (userDefinedTypeColsHaveSameVersion a.tdesc b.tdesc = true) then some false
  else zoneLoop none none (a.indexes.map (fun i => i.zone)) (b.indexes.map (fun i => i.zone))

/-- Within one table every zone reference with the same pointer carries the
same value: the coherence every Go heap satisfies by construction. -/
def zonesCoherent (zs : List ZoneRef) : Prop :=
  ∀ z1 ∈ zs, ∀ z2 ∈ zs, z1.ptr = z2.ptr → z1.val = z2.val

/-- Maximum value of a 32-bit unsigned integer (math.MaxUint32, line 1538). -/
def maxUint32 : Nat := 4294967295

/-- The database context a virtual table is resolved under: none when the
name carries no catalog qualifier (line 1521), some none when a qualifier
was given but the database does not resolve (lines 1527-1538), and
some (some dbID) when it resolves to the database with that ID
(lines 1539-1542). -/
def DbContext : Type := Option (Option Nat)

/-- The stable ID computed at lines 1519-1543: the descriptor ID, with the
resolving database ID (or the all-ones sentinel) packed into the high 32
bits. The Go code ors the shifted value into a uint64 whose low word is the
32-bit descriptor ID, which for descID < 2^32 is exactly this sum. -/
def virtualTableStableID (descID : Nat) (ctx : DbContext) : Nat :=
  match ctx with
  | none => descID
  | some none => descID + maxUint32 * 2 ^ 32
  | some (some dbID) => descID + dbID * 2 ^ 32

/-- A built virtual index (optVirtualIndex, lines 1764-1775). -/
structure OptVirtualIndex where
  isPrimary : Bool
  idxDesc : IndexDesc
  numCols : Nat
  indexOrdinal : Nat
deriving DecidableEq

/-- KeyColumnCount of a virtual index (lines 1808-1816): always exactly 2,
the indexed column plus the synthesized bogus primary-key column. -/
def OptVirtualIndex.keyColumnCount (_ : OptVirtualIndex) : Nat := 2

/-- LaxKeyColumnCount of a virtual index (lines 1819-1823): virtual indexes
are never unique, so the lax key equals the key; always exactly 2. -/
def OptVirtualIndex.laxKeyColumnCount (_ : OptVirtualIndex) : Nat := 2

/-- A built virtual table (optVirtualTable, lines 1477-1512). -/
structure OptVirtualTable where
  tdesc : TableDesc
  id : Nat
  columns : List CatColumn
  indexes : List OptVirtualIndex
deriving DecidableEq

/-- Modelled from the spec: math.MaxInt64, the reserved stable column ID of
the dummy virtual-table primary-key column (line 1555). -/
def maxInt64 : Nat := 9223372036854775807

/-- The dummy PK column initialized at lines 1552-1563: ordinal 0, reserved
ID, name crdb_internal_vtable_pk, ordinary kind, non-nullable, hidden. -/
def virtualDummyPKColumn : CatColumn :=
  { ordinal := 0, colID := maxInt64, name := "crdb_internal_vtable_pk",
    kind := ColumnKind.ordinary, typ := 0, nullable := false, hidden := true,
    defaultExpr := none, computeExpr := none, virtualSource := none }

/-- The synthesized primary virtual index set up at lines 1593-1603. -/
def virtualPrimaryIndex (numCols : Nat) : OptVirtualIndex :=
  { isPrimary := true,
    idxDesc := { id := 0, name := "primary", unique := false, inverted := false,
                 columnIDs := [], extraColumnIDs := [], storeColumnIDs := [] },
    numCols := numCols, indexOrdinal := 0 }

/-- newOptVirtualTable (lines 1516-1622), with the database lookup outcome
supplied as a resolved context. Construction panics (modelled as an error)
when a declared descriptor index has more than one key column (lines
1605-1609); the error string is the Go panic message. -/
def newOptVirtualTable (d : TableDesc) (ctx : DbContext) :
    Except String OptVirtualTable :=
  let id := virtualTableStableID d.id ctx
  let cols := virtualDummyPKColumn ::
    mapWithIndex
      (fun i cd =>
        { ordinal := i + 1, colID := cd.id, name := cd.name,
          kind := ColumnKind.ordinary, typ := cd.typ, nullable := cd.nullable,
          hidden := cd.hidden, defaultExpr := cd.defaultExpr,
          computeExpr := cd.computeExpr, virtualSource := none })
      d.columns
  if d.indexes.any (fun idx => 1 < idx.columnIDs.length) then
    Except.error ("virtual indexes with more than 1 col not supported")
  else
    Except.ok
      { tdesc := d, id := id, columns := cols,
        indexes := virtualPrimaryIndex cols.length ::
          (d.indexes.enum).map
            (fun p =>
              { isPrimary := false, idxDesc := p.2,
                numCols := cols.length, indexOrdinal := p.1 + 1 }) }

/-- The stable ID of a built non-virtual table (lines 827-829). -/
def OptTable.stableID (ot : OptTable) : Nat := ot.tdesc.id

/-- The stable ID of a built virtual table (lines 1625-1627). -/
def OptVirtualTable.stableID (ot : OptVirtualTable) : Nat := ot.id

/-- A cat.Table passed to a foreign-key ordinal accessor: either a built
non-virtual table or a built virtual table. -/
inductive CatTableRef where
  | phys (t : OptTable)
  | virt (t : OptVirtualTable)

/-- The ID method of a cat.Table reference. -/
def CatTableRef.stableID : CatTableRef → Nat
  | CatTableRef.phys t => t.stableID
  | CatTableRef.virt t => t.stableID

/-- A built foreign-key constraint (optForeignKeyConstraint, lines
1392-1405), restricted to the fields the ordinal accessors read. -/
structure OptForeignKeyConstraint where
  name : String
  originTable : Nat
  originColumns : List Nat
  referencedTable : Nat
  referencedColumns : List Nat
deriving DecidableEq

/-- A fatal-class assertion failure (errors.AssertionFailedf wrapped in a Go
panic): the invariant-violation outcome of the ordinal accessors. -/
inductive FatalError where
  | assertionFailure (msg : String)
deriving DecidableEq

/-- OriginColumnOrdinal (lines 1430-1441): panics with an assertion failure
when the given table is not the registered origin table; otherwise casts the
table to optTable (panicking on a virtual table) and resolves the i-th
origin column ID through the colMap. Accessing originColumns out of range
would panic in Go; the model reads a default 0 there. -/
def OptForeignKeyConstraint.originColumnOrdinal (fk : OptForeignKeyConstraint)
    (tab : CatTableRef) (i : Nat) : Except FatalError Nat :=
  if tab.stableID ≠ fk.originTable then
    Except.error (FatalError.assertionFailure
      ("invalid table passed to OriginColumnOrdinal"))
  else
    match tab with
    | CatTableRef.phys t =>
        Except.ok (lookupOrdinalD t.colMapCols ((fk.originColumns.get? i).getD 0))
    | CatTableRef.virt _ =>
        Except.error (FatalError.assertionFailure ("type assertion to optTable failed"))

/-- ReferencedColumnOrdinal (lines 1444-1454): symmetric to
originColumnOrdinal for the referenced endpoint. -/
def OptForeignKeyConstraint.referencedColumnOrdinal (fk : OptForeignKeyConstraint)
    (tab : CatTableRef) (i : Nat) : Except FatalError Nat :=
  if tab.stableID ≠ fk.referencedTable then
    Except.error (FatalError.assertionFailure
      ("invalid table passed to ReferencedColumnOrdinal"))
  else
    match tab with
    | CatTableRef.phys t =>
        Except.ok (lookupOrdinalD t.colMapCols ((fk.referencedColumns.get? i).getD 0))
    | CatTableRef.virt _ =>
        Except.error (FatalError.assertionFailure ("type assertion to optTable failed"))

/-- The outcome of the descriptor lookup performed by ResolveDataSourceByID
through planner.LookupTableByID (line 234): success, a
descriptor-not-found error, an adding-table error, or any other error
(abstracted by a numeric code). -/
inductive LookupResult where
  | found (d : TableDesc)
  | errNotFound
  | errAdding
  | errOther (code : Nat)
deriving DecidableEq

/-- An error returned by ResolveDataSourceByID: either the UndefinedRelation
error built by sqlerrors.NewUndefinedRelationError for the given table ID
(line 239), or some other error propagated unchanged (line 241). -/
inductive ResolveErr where
  | undefinedRelation (id : Nat)
  | other (code : Nat)
deriving DecidableEq

/-- Whether a resolution error is the UndefinedRelation-class error. -/
def ResolveErr.isUndefinedRelation : ResolveErr → Bool
  | ResolveErr.undefinedRelation _ => true
  | ResolveErr.other _ => false

/-- ResolveDataSourceByID (lines 224-247) with the lookup outcome supplied:
returns the resolved descriptor, the isAdding flag and the error. On a
not-found or adding-table lookup error it fails with UndefinedRelation,
reporting isAdding = true exactly in the adding case; any other lookup
error propagates unchanged with isAdding = false. The successful branch
hands the descriptor to dataSourceForDesc, whose construction is modelled
elsewhere. -/
def resolveDataSourceByID (dataSourceID : Nat) (lookup : LookupResult) :
    Option TableDesc × Bool × Option ResolveErr :=
  match lookup with
  | LookupResult.found d => (some d, false, none)
  | LookupResult.errNotFound =>
      (none, false, some (ResolveErr.undefinedRelation dataSourceID))
  | LookupResult.errAdding =>
      (none, true, some (ResolveErr.undefinedRelation dataSourceID))
  | LookupResult.errOther c => (none, false, some (ResolveErr.other c))

/-- The discriminated schema kind (catalog.ResolvedSchema.Kind, lines
102-111). -/
inductive SchemaKind where
  | userDefined
  | temporary
  | virtualSchema
  | publicSchema
deriving DecidableEq

/-- A resolved schema wrapper (optSchema, lines 91-98) restricted to the
identity-relevant fields. -/
structure OptSchema where
  databaseID : Nat
  schemaID : Nat
  kind : SchemaKind
  name : String
deriving DecidableEq

/-- optSchema.ID (lines 101-112): the own schema ID for user-defined and
temporary schemas, the owning database ID otherwise. -/
def OptSchema.stableID (s : OptSchema) : Nat :=
  match s.kind with
  | SchemaKind.userDefined => s.schemaID
  | SchemaKind.temporary => s.schemaID
  | SchemaKind.virtualSchema => s.databaseID
  | SchemaKind.publicSchema => s.databaseID

/-- A cat.Object passed to optSchema.Equals: the type switch at line 121
succeeds only for another optSchema. -/
inductive CatObject where
  | schemaObj (s : OptSchema)
  | tableObj (t : OptTable)
  | virtualTableObj (t : OptVirtualTable)

/-- optSchema.Equals (lines 119-123): the other object is an optSchema and
the stable IDs agree. -/
def OptSchema.equalsObj (s : OptSchema) (other : CatObject) : Bool :=
  match other with
  | CatObject.schemaObj o => s.stableID = o.stableID
  | _ => false

/-! Concrete inputs used by the witness theorems. -/

/-- A concrete descriptor column. -/
def exCol (id : Nat) (nm : String) (nl : Bool) : ColumnDesc :=
  { id := id, name := nm, typ := 0, udtVersion := none, nullable := nl,
    hidden := false, defaultExpr := none, computeExpr := none }

/-- Concrete primary index on column a (id 1). -/
def exPrimary : IndexDesc :=
  { id := 1, name := "primary", unique := true, inverted := false,
    columnIDs := [1], extraColumnIDs := [], storeColumnIDs := [2, 3] }

/-- Concrete unique secondary index on nullable column b (id 2) with
implicit extra key column a. -/
def exIdxB : IndexDesc :=
  { id := 2, name := "b_idx", unique := true, inverted := false,
    columnIDs := [2], extraColumnIDs := [1], storeColumnIDs := [] }

/-- Concrete non-unique secondary index on column c (id 3) with implicit
extra key column a. -/
def exIdxC : IndexDesc :=
  { id := 3, name := "c_idx", unique := false, inverted := false,
    columnIDs := [3], extraColumnIDs := [1], storeColumnIDs := [] }

/-- Concrete table descriptor with columns a, b nullable, c, mirroring the
key-column derivation example of spec section 8. -/
def exDesc : TableDesc :=
  { id := 53, version := 4,
    columns := [exCol 1 "a" false, exCol 2 "b" true, exCol 3 "c" false],
    writeOnlyCols := [], deleteOnlyCols := [],
    primaryIndex := exPrimary, indexes := [exIdxB, exIdxC] }

/-- Concrete table zone with no subzones. -/
def exZone : ZoneRef := { ptr := 7, val := { cfg := 5, subzones := [] } }

/-- Concrete statistics snapshot: one statistic on column a. -/
def exStats : List StatRef :=
  [{ ptr := 100, stat := { createdAt := 10, columnIDs := [1] } }]

/-- The table built from the concrete descriptor. -/
def exTable : OptTable := newOptTable 0 exDesc exStats exZone

/-- A second build of the same inputs at a different object identity. -/
def exTable2 : OptTable := newOptTable 1 exDesc exStats exZone

/-- Concrete virtual table descriptor with one declared single-column index. -/
def exVDesc : TableDesc :=
  { id := 4294967042, version := 1,
    columns := [exCol 1 "objoid" false, exCol 2 "classoid" true],
    writeOnlyCols := [], deleteOnlyCols := [],
    primaryIndex := exPrimary,
    indexes := [{ id := 2, name := "vidx", unique := false, inverted := false,
                  columnIDs := [1], extraColumnIDs := [], storeColumnIDs := [] }] }

/-- Concrete virtual table descriptor declaring a two-column index. -/
def exVDescBad : TableDesc :=
  { exVDesc with
    indexes := [{ id := 2, name := "vidx2", unique := false, inverted := false,
                  columnIDs := [1, 2], extraColumnIDs := [], storeColumnIDs := [] }] }

/-- Concrete foreign-key constraint from table 53 to table 54. -/
def exFK : OptForeignKeyConstraint :=
  { name := "fk_a", originTable := 53, originColumns := [1],
    referencedTable := 54, referencedColumns := [9] }

/-- A concrete table whose stable ID (99) matches neither endpoint of the
concrete foreign-key constraint. -/
def exWrongTable : OptTable :=
  newOptTable 2 { exDesc with id := 99 } [] exZone

instance : Inhabited OptIndex :=
  ⟨⟨{ id := 0, name := "", unique := false, inverted := false,
      columnIDs := [], extraColumnIDs := [], storeColumnIDs := [] },
    ⟨0, ⟨0, []⟩⟩, [], 0, 0, 0, 0, -1⟩⟩

/-- The built wrapper of the concrete unique index on nullable column b. -/
def exBuiltIdxB : OptIndex := ((exTable.indexes.get? 1).getD default)

/-! Theorems. -/

theorem newOptTable_tdesc (a : Nat) (d : TableDesc) (s : List StatRef) (z : ZoneRef) :
    (newOptTable a d s z).tdesc = d := rfl

theorem newOptTable_rawStats (a : Nat) (d : TableDesc) (s : List StatRef) (z : ZoneRef) :
    (newOptTable a d s z).rawStats = s := rfl

theorem newOptTable_zone (a : Nat) (d : TableDesc) (s : List StatRef) (z : ZoneRef) :
    (newOptTable a d s z).zone = z := rfl

theorem newOptTable_stats (a : Nat) (d : TableDesc) (s : List StatRef) (z : ZoneRef) :
    (newOptTable a d s z).stats
      = s.filterMap (fun r => optTableStatInit (columnsWithSystem d) r.stat) := rfl

theorem newOptTable_indexes (a : Nat) (d : TableDesc) (s : List StatRef) (z : ZoneRef) :
    (newOptTable a d s z).indexes
      = (buildIndexesGo (columnsWithSystem d) z 0 (columnsWithSystem d)
          (d.primaryIndex :: d.indexes)).2 := rfl

theorem userDefinedTypeColsHaveSameVersion_refl (d : TableDesc) :
    userDefinedTypeColsHaveSameVersion d d = true := by
  simp [userDefinedTypeColsHaveSameVersion]

theorem optTableStatEquals_refl (x : OptTableStat) : optTableStatEquals x x = true := by
  simp [optTableStatEquals]

theorem zip_all_statEquals_refl (l : List OptTableStat) :
    (l.zip l).all (fun p => optTableStatEquals p.1 p.2) = true := by
  induction l with
  | nil => rfl
  | cons x xs ih => simp [List.zip_cons_cons, optTableStatEquals_refl, ih]

theorem zoneLoop_refl (zs : List ZoneRef) (p : Option ZoneRef) :
    zoneLoop p p zs zs = some true := by
  induction zs generalizing p with
  | nil => rfl
  | cons z rest ih =>
    by_cases h : (p.map (fun w => w.ptr)) = some z.ptr ∧ (p.map (fun w => w.ptr)) = some z.ptr
    · simp only [zoneLoop, if_pos h]
      exact ih p
    · simp only [zoneLoop, if_neg h, if_pos rfl]
      exact ih (some z)

/-- C5: building a Table twice, independently, from the same descriptor
snapshot (identical ID and version), the same statistics snapshot instance
and the same placement snapshot yields two Table objects for which Equals
returns true, whatever the two object identities are. -/
theorem c5_round_trip (addr1 addr2 : Nat) (d : TableDesc) (s : List StatRef)
    (z : ZoneRef) :
    optTableEquals (newOptTable addr1 d s z) (newOptTable addr2 d s z) = some true := by
  unfold optTableEquals
  by_cases haddr : (newOptTable addr1 d s z).addr = (newOptTable addr2 d s z).addr
  · rw [if_pos haddr]
  · rw [if_neg haddr]
    rw [if_neg (by simp [newOptTable_tdesc])]
    rw [if_neg (by simp [newOptTable_stats])]
    rw [if_neg (by simp [newOptTable_stats, zip_all_statEquals_refl])]
    rw [if_neg (by simp [newOptTable_tdesc, userDefinedTypeColsHaveSameVersion_refl])]
    simp only [newOptTable_indexes]
    exact zoneLoop_refl _ _

theorem isStale_true_iff (ot : OptTable) (rawDesc : TableDesc)
    (tableStats : List StatRef) (zone : ZoneRef) :
    ot.isStale rawDesc tableStats zone = true ↔
      (tableStats.length ≠ ot.rawStats.length ∨
       (0 < tableStats.length ∧
        tableStats.head?.map (fun r => r.ptr)
          ≠ ot.rawStats.head?.map (fun r => r.ptr)) ∨
       ¬ (zone.val = ot.zone.val) ∨
       ¬ (userDefinedTypeColsHaveSameVersion ot.tdesc rawDesc = true)) := by
  unfold OptTable.isStale
  split_ifs with h1 h2 h3 h4 <;> simp_all

/-- C3: for a cached built table, isStale returns true iff the statistics
lengths differ, or both snapshots are non-empty and the new snapshot is a
different instance, or the new placement is not deeply equal to the cached
one, or some column user-defined-type version differs; with the very same
statistics instance, equal placement and unchanged versions it returns
false; and a different non-empty snapshot instance of equal length makes it
return true. -/
theorem c3_is_stale (a : Nat) (d : TableDesc) (s : List StatRef) (z : ZoneRef)
    (rawDesc : TableDesc) (newStats : List StatRef) (newZone : ZoneRef) :
    ((newOptTable a d s z).isStale rawDesc newStats newZone = true ↔
      (newStats.length ≠ s.length ∨
       (0 < newStats.length ∧ 0 < s.length ∧
        newStats.head?.map (fun r => r.ptr) ≠ s.head?.map (fun r => r.ptr)) ∨
       newZone.val ≠ z.val ∨
       ¬ (userDefinedTypeColsHaveSameVersion d rawDesc = true))) ∧
    ((newOptTable a d s z).isStale d s z = false) ∧
    (0 < newStats.length → newStats.length = s.length →
     newStats.head?.map (fun r => r.ptr) ≠ s.head?.map (fun r => r.ptr) →
     (newOptTable a d s z).isStale rawDesc newStats newZone = true) := by
  refine ⟨?_, ?_, ?_⟩
  · rw [isStale_true_iff]
    simp only [newOptTable_rawStats, newOptTable_zone, newOptTable_tdesc]
    by_cases hlen : newStats.length = s.length
    · constructor
      · rintro (h | h | h | h)
        · exact Or.inl h
        · exact Or.inr (Or.inl ⟨h.1, by omega, h.2⟩)
        · exact Or.inr (Or.inr (Or.inl h))
        · exact Or.inr (Or.inr (Or.inr h))
      · rintro (h | h | h | h)
        · exact Or.inl h
        · exact Or.inr (Or.inl ⟨h.1, h.2.2⟩)
        · exact Or.inr (Or.inr (Or.inl h))
        · exact Or.inr (Or.inr (Or.inr h))
    · constructor
      · intro _; exact Or.inl hlen
      · intro _; exact Or.inl hlen
  · simp only [OptTable.isStale, newOptTable_rawStats, newOptTable_zone, newOptTable_tdesc]
    rw [if_neg (by simp), if_neg (by simp), if_neg (by simp),
      if_neg (by simp [userDefinedTypeColsHaveSameVersion_refl])]
  · intro hpos hlen hne
    simp only [OptTable.isStale, newOptTable_rawStats, newOptTable_zone, newOptTable_tdesc]
    rw [if_neg (by omega), if_pos ⟨hpos, hne⟩]

/-- C6: a virtual table stable ID is the raw descriptor ID with the
resolving database ID packed into the high 32 bits; with no database
qualifier the high 32 bits are zero; with a qualifier that does not resolve
they are the all-ones sentinel; and resolving the same descriptor under two
different existing databases and with no database context yields three
pairwise distinct stable IDs. -/
theorem c6_virtual_table_identity (descID db1 db2 : Nat)
    (hlt : descID < 2 ^ 32) (h1 : db1 < 2 ^ 32) (h2 : db2 < 2 ^ 32)
    (h1z : db1 ≠ 0) (h2z : db2 ≠ 0) (hne : db1 ≠ db2) :
    (virtualTableStableID descID none = descID) ∧
    (virtualTableStableID descID (some (some db1)) / 2 ^ 32 = db1 ∧
     virtualTableStableID descID (some (some db1)) % 2 ^ 32 = descID) ∧
    (virtualTableStableID descID (some none) / 2 ^ 32 = maxUint32) ∧
    virtualTableStableID descID (some (some db1))
      ≠ virtualTableStableID descID (some (some db2)) ∧
    virtualTableStableID descID (some (some db1)) ≠ virtualTableStableID descID none ∧
    virtualTableStableID descID (some (some db2)) ≠ virtualTableStableID descID none := by
  have hp : (2 : Nat) ^ 32 = 4294967296 := by norm_num
  have e0 : virtualTableStableID descID none = descID := rfl
  have e1 : virtualTableStableID descID (some (some db1))
      = descID + db1 * 2 ^ 32 := rfl
  have e2 : virtualTableStableID descID (some (some db2))
      = descID + db2 * 2 ^ 32 := rfl
  have e3 : virtualTableStableID descID (some none)
      = descID + maxUint32 * 2 ^ 32 := rfl
  rw [e0, e1, e2, e3]
  unfold maxUint32
  rw [hp] at *
  refine ⟨rfl, ⟨?_, ?_⟩, ?_, ?_, ?_, ?_⟩ <;> omega

/-- C7: every index of a built virtual table reports exactly 2 key columns
and exactly 2 lax-key columns, and constructing a virtual table whose
descriptor declares an index with more than one key column is rejected
(the construction panics) rather than producing a table. -/
theorem c7_virtual_index_key_columns (d : TableDesc) (ctx : DbContext) :
    (∀ vt, newOptVirtualTable d ctx = Except.ok vt →
      ∀ oi ∈ vt.indexes, oi.keyColumnCount = 2 ∧ oi.laxKeyColumnCount = 2) ∧
    ((∃ idx ∈ d.indexes, 1 < idx.columnIDs.length) →
      newOptVirtualTable d ctx =
        Except.error ("virtual indexes with more than 1 col not supported")) := by
  constructor
  · intro vt _ oi _
    exact ⟨rfl, rfl⟩
  · intro h
    have hany : (d.indexes.any (fun idx => 1 < idx.columnIDs.length)) = true := by
      rw [List.any_eq_true]
      obtain ⟨idx, hm, hl⟩ := h
      exact ⟨idx, hm, by simpa using hl⟩
    unfold newOptVirtualTable
    simp [hany]

/-- C8: calling the origin-column-ordinal accessor (resp. the
referenced-column-ordinal accessor) with a table whose stable ID differs
from the constraint registered origin (resp. referenced) table ID always
raises a fatal-class assertion failure and never returns an ordinal. -/
theorem c8_fk_ordinal_safety (fk : OptForeignKeyConstraint) (tab : CatTableRef)
    (i : Nat) :
    (tab.stableID ≠ fk.originTable →
      fk.originColumnOrdinal tab i =
        Except.error (FatalError.assertionFailure
          ("invalid table passed to OriginColumnOrdinal"))) ∧
    (tab.stableID ≠ fk.referencedTable →
      fk.referencedColumnOrdinal tab i =
        Except.error (FatalError.assertionFailure
          ("invalid table passed to ReferencedColumnOrdinal"))) := by
  constructor
  · intro h
    unfold OptForeignKeyConstraint.originColumnOrdinal
    rw [if_pos h]
  · intro h
    unfold OptForeignKeyConstraint.referencedColumnOrdinal
    rw [if_pos h]

/-- C8 witness: at the concrete constraint and the concrete table of stable
ID 99 (matching neither endpoint), both accessors fail with the assertion
failure. -/
theorem c8_fk_ordinal_safety_witness :
    exFK.originColumnOrdinal (CatTableRef.phys exWrongTable) 0 =
      Except.error (FatalError.assertionFailure
        ("invalid table passed to OriginColumnOrdinal")) ∧
    exFK.referencedColumnOrdinal (CatTableRef.phys exWrongTable) 0 =
      Except.error (FatalError.assertionFailure
        ("invalid table passed to ReferencedColumnOrdinal")) :=
  ⟨(c8_fk_ordinal_safety exFK (CatTableRef.phys exWrongTable) 0).1 (by decide),
   (c8_fk_ordinal_safety exFK (CatTableRef.phys exWrongTable) 0).2 (by decide)⟩

/-- C9 counterexample: with a lookup failure that is neither not-found nor
adding-table (so neither of the two states of the claim applies), the call
fails, but with the original error propagated unchanged rather than an
UndefinedRelation-class error — refuting the claim that it fails with
UndefinedRelation if neither of those two states applies. -/
theorem c9_counterexample :
    (resolveDataSourceByID 5 (LookupResult.errOther 7)).2.2
      = some (ResolveErr.other 7) ∧
    ¬ ((resolveDataSourceByID 5 (LookupResult.errOther 7)).2.2.map
        ResolveErr.isUndefinedRelation = some true) := by
  decide

/-- C9 (amended): ResolveDataSourceByID reports the mid-creation state
through the isAdding flag (true exactly in the adding case), fails with the
UndefinedRelation-class error exactly when the lookup reports not-found or
adding-table, propagates any other lookup error unchanged, and succeeds
without error on a found descriptor. -/
theorem c9_resolve_by_id (id : Nat) (lk : LookupResult) :
    ((resolveDataSourceByID id lk).2.2.map ResolveErr.isUndefinedRelation = some true ↔
      (lk = LookupResult.errNotFound ∨ lk = LookupResult.errAdding)) ∧
    ((resolveDataSourceByID id lk).2.1 = true ↔ lk = LookupResult.errAdding) ∧
    (∀ c, lk = LookupResult.errOther c →
      (resolveDataSourceByID id lk).2.2 = some (ResolveErr.other c)) ∧
    (∀ d, lk = LookupResult.found d → (resolveDataSourceByID id lk).2.2 = none) := by
  cases lk <;> simp [resolveDataSourceByID, ResolveErr.isUndefinedRelation]

/-- C9 witness: at a concrete ID and an adding-table lookup outcome the flag
is true; at a concrete other-error outcome the error propagates unchanged. -/
theorem c9_resolve_by_id_witness :
    (resolveDataSourceByID 5 LookupResult.errAdding).2.1 = true ∧
    (resolveDataSourceByID 5 (LookupResult.errOther 7)).2.2
      = some (ResolveErr.other 7) :=
  ⟨(c9_resolve_by_id 5 LookupResult.errAdding).2.1.mpr rfl,
   (c9_resolve_by_id 5 (LookupResult.errOther 7)).2.2.1 7 rfl⟩

/-- C10: schema-object equality is based solely on the stable ID — Equals
holds iff the other object is a schema object with the same stable ID — and
any virtual or public schemas of the same database compare equal regardless
of their names or kinds. -/
theorem c10_schema_equality (s : OptSchema) (o : CatObject) (s1 s2 : OptSchema)
    (h1 : s1.kind = SchemaKind.virtualSchema ∨ s1.kind = SchemaKind.publicSchema)
    (h2 : s2.kind = SchemaKind.virtualSchema ∨ s2.kind = SchemaKind.publicSchema)
    (hdb : s1.databaseID = s2.databaseID) :
    (s.equalsObj o = true ↔
      ∃ o2, o = CatObject.schemaObj o2 ∧ s.stableID = o2.stableID) ∧
    s1.equalsObj (CatObject.schemaObj s2) = true := by
  constructor
  · cases o <;> simp [OptSchema.equalsObj]
  · have e1 : s1.stableID = s1.databaseID := by
      rcases h1 with h | h <;> simp [OptSchema.stableID, h]
    have e2 : s2.stableID = s2.databaseID := by
      rcases h2 with h | h <;> simp [OptSchema.stableID, h]
    simp [OptSchema.equalsObj, e1, e2, hdb]

/-- C10 witness: the virtual schema and the public schema of database 10,
with different names, schema IDs and kinds, compare equal; and equality
with a non-schema object is false while equality with an equal-ID schema is
true. -/
theorem c10_schema_equality_witness :
    OptSchema.equalsObj ⟨10, 1, SchemaKind.virtualSchema, "pg_catalog"⟩
      (CatObject.schemaObj ⟨10, 2, SchemaKind.publicSchema, "public"⟩) = true :=
  (c10_schema_equality ⟨10, 1, SchemaKind.virtualSchema, "pg_catalog"⟩
    (CatObject.schemaObj ⟨10, 2, SchemaKind.publicSchema, "public"⟩)
    ⟨10, 1, SchemaKind.virtualSchema, "pg_catalog"⟩
    ⟨10, 2, SchemaKind.publicSchema, "public"⟩
    (Or.inl rfl) (Or.inr rfl) rfl).2

/-- C6 witness: at descriptor ID 4294967042 and databases 50 and 52, the
three stable IDs (under database 50, under database 52, with no database
context) are pairwise distinct, and the packing facts hold. -/
theorem c6_virtual_table_identity_witness :
    virtualTableStableID 4294967042 (some (some 50))
      ≠ virtualTableStableID 4294967042 (some (some 52)) ∧
    virtualTableStableID 4294967042 (some (some 50))
      ≠ virtualTableStableID 4294967042 none ∧
    virtualTableStableID 4294967042 (some (some 52))
      ≠ virtualTableStableID 4294967042 none :=
  ⟨(c6_virtual_table_identity 4294967042 50 52 (by norm_num) (by norm_num)
      (by norm_num) (by norm_num) (by norm_num) (by norm_num)).2.2.2.1,
   (c6_virtual_table_identity 4294967042 50 52 (by norm_num) (by norm_num)
      (by norm_num) (by norm_num) (by norm_num) (by norm_num)).2.2.2.2.1,
   (c6_virtual_table_identity 4294967042 50 52 (by norm_num) (by norm_num)
      (by norm_num) (by norm_num) (by norm_num) (by norm_num)).2.2.2.2.2⟩

/-- C7 witness: the concrete two-column virtual index descriptor is
rejected, and every index of the concrete well-formed virtual table reports
2 key and 2 lax-key columns. -/
theorem c7_virtual_index_key_columns_witness :
    newOptVirtualTable exVDescBad none =
      Except.error ("virtual indexes with more than 1 col not supported") :=
  (c7_virtual_index_key_columns exVDescBad none).2 (by decide)

theorem buildIndexesGo_cons_inv (cols1 : List CatColumn) (z : ZoneRef) (i : Nat)
    (cols : List CatColumn) (idx : IndexDesc) (rest : List IndexDesc)
    (h : idx.inverted = true) :
    buildIndexesGo cols1 z i cols (idx :: rest) =
      ((buildIndexesGo cols1 z (i + 1)
          (cols ++ [invertedVirtualColumn cols1 cols idx]) rest).1,
       optIndexInitModel cols1 (cols ++ [invertedVirtualColumn cols1 cols idx])
           (i == 0) i idx (resolveIndexZone z i idx.id) (Int.ofNat cols.length) ::
         (buildIndexesGo cols1 z (i + 1)
           (cols ++ [invertedVirtualColumn cols1 cols idx]) rest).2) := by
  simp [buildIndexesGo, h]

theorem buildIndexesGo_cons_noninv (cols1 : List CatColumn) (z : ZoneRef) (i : Nat)
    (cols : List CatColumn) (idx : IndexDesc) (rest : List IndexDesc)
    (h : idx.inverted = false) :
    buildIndexesGo cols1 z i cols (idx :: rest) =
      ((buildIndexesGo cols1 z (i + 1) cols rest).1,
       optIndexInitModel cols1 cols (i == 0) i idx (resolveIndexZone z i idx.id) (-1) ::
         (buildIndexesGo cols1 z (i + 1) cols rest).2) := by
  simp [buildIndexesGo, h]

theorem buildIndexesGo_cols (cols1 : List CatColumn) (z : ZoneRef)
    (rest : List IndexDesc) :
    ∀ (i : Nat) (cols : List CatColumn),
      ∃ t, (buildIndexesGo cols1 z i cols rest).1 = cols ++ t ∧
        ∀ c ∈ t, c.kind = ColumnKind.virtualKind := by
  induction rest with
  | nil =>
    intro i cols
    exact ⟨[], by simp [buildIndexesGo], by simp⟩
  | cons idx rest ih =>
    intro i cols
    by_cases hinv : idx.inverted = true
    · rw [buildIndexesGo_cons_inv cols1 z i cols idx rest hinv]
      obtain ⟨t, ht, hk⟩ := ih (i + 1) (cols ++ [invertedVirtualColumn cols1 cols idx])
      refine ⟨invertedVirtualColumn cols1 cols idx :: t, ?_, ?_⟩
      · simpa using ht
      · intro c hc
        rcases List.mem_cons.mp hc with hc | hc
        · rw [hc]
          rfl
        · exact hk c hc
    · rw [buildIndexesGo_cons_noninv cols1 z i cols idx rest (by simpa using hinv)]
      exact ih (i + 1) cols

theorem columnKindAt_not_system (d : TableDesc) (i : Nat) :
    columnKindAt d i ≠ ColumnKind.system ∧ columnKindAt d i ≠ ColumnKind.virtualKind := by
  unfold columnKindAt
  split_ifs <;> simp

theorem initNonVirtualColumns_kind (d : TableDesc) (c : CatColumn)
    (h : c ∈ initNonVirtualColumns d) :
    c.kind ≠ ColumnKind.system ∧ c.kind ≠ ColumnKind.virtualKind := by
  simp only [initNonVirtualColumns, mapWithIndex, List.mem_map] at h
  obtain ⟨p, hp, he⟩ := h
  rw [← he]
  exact columnKindAt_not_system d p.1

theorem initNonVirtualColumns_length (d : TableDesc) :
    (initNonVirtualColumns d).length = (deletableColumns d).length := by
  simp [initNonVirtualColumns, mapWithIndex]

/-- C2 counterexample: in the concrete built table (no column of the
reserved name in the descriptor), the unique appended system column is
nullable, refuting the claim that the synthesized system column is
non-nullable. -/
theorem c2_counterexample :
    (exTable.columns.filter (fun c => c.kind = ColumnKind.system)).map
        (fun c => c.nullable) = [true] := by
  decide

/-- C2 (amended: the appended system column is hidden and NULLABLE — the
source passes nullable = true at line 672): when a table model is built from
a raw descriptor without a column of the reserved row-versioning name,
exactly one synthesized system column is appended directly after all real
columns (everything after it is a synthesized virtual column), and that
column is hidden and nullable; when the descriptor already contains a
column of the reserved name, no system column is appended at all. -/
theorem c2_system_column (a : Nat) (d : TableDesc) (s : List StatRef) (z : ZoneRef) :
    (findColumnByName d mvccTimestampColumnName = false →
      ((newOptTable a d s z).columns.get? (deletableColumns d).length
          = some (mvccSystemColumn (deletableColumns d).length) ∧
       (mvccSystemColumn (deletableColumns d).length).kind = ColumnKind.system ∧
       (mvccSystemColumn (deletableColumns d).length).hidden = true ∧
       (mvccSystemColumn (deletableColumns d).length).nullable = true ∧
       ((newOptTable a d s z).columns.filter
          (fun c => c.kind = ColumnKind.system)).length = 1 ∧
       (∀ j c, (newOptTable a d s z).columns.get? j = some c →
          c.kind ≠ ColumnKind.virtualKind → j < (deletableColumns d).length + 1))) ∧
    (findColumnByName d mvccTimestampColumnName = true →
      (newOptTable a d s z).columns.filter (fun c => c.kind = ColumnKind.system) = []) := by
  obtain ⟨t, ht, htk⟩ :=
    buildIndexesGo_cols (columnsWithSystem d) z (d.primaryIndex :: d.indexes)
      0 (columnsWithSystem d)
  have hcols : (newOptTable a d s z).columns = columnsWithSystem d ++ t := ht
  constructor
  · intro hnf
    have hsys : columnsWithSystem d
        = initNonVirtualColumns d
          ++ [mvccSystemColumn (initNonVirtualColumns d).length] := by
      simp [columnsWithSystem, hnf]
    have hlen : (initNonVirtualColumns d).length = (deletableColumns d).length :=
      initNonVirtualColumns_length d
    rw [hlen] at hsys
    refine ⟨?_, rfl, rfl, rfl, ?_, ?_⟩
    · rw [hcols, hsys, List.append_assoc]
      rw [List.get?_append_right (by omega)]
      simp [hlen]
    · rw [hcols, hsys, List.filter_append, List.filter_append]
      have h1 : (initNonVirtualColumns d).filter
          (fun c => c.kind = ColumnKind.system) = [] := by
        rw [List.filter_eq_nil]
        intro c hc
        have := (initNonVirtualColumns_kind d c hc).1
        simpa using this
      have h2 : t.filter (fun c => c.kind = ColumnKind.system) = [] := by
        rw [List.filter_eq_nil]
        intro c hc
        have := htk c hc
        simp [this]
      rw [h1, h2]
      simp [mvccSystemColumn]
    · intro j c hj hknv
      by_contra hge
      push_neg at hge
      have hlen2 : (columnsWithSystem d).length = (deletableColumns d).length + 1 := by
        rw [hsys]
        simp [hlen]
      rw [hcols, List.get?_append_right (by omega)] at hj
      have hmem : c ∈ t := List.get?_mem hj
      exact hknv (htk c hmem)
  · intro hf
    have hsys : columnsWithSystem d = initNonVirtualColumns d := by
      simp [columnsWithSystem, hf]
    rw [hcols, hsys, List.filter_append]
    have h1 : (initNonVirtualColumns d).filter
        (fun c => c.kind = ColumnKind.system) = [] := by
      rw [List.filter_eq_nil]
      intro c hc
      have := (initNonVirtualColumns_kind d c hc).1
      simpa using this
    have h2 : t.filter (fun c => c.kind = ColumnKind.system) = [] := by
      rw [List.filter_eq_nil]
      intro c hc
      have := htk c hc
      simp [this]
    rw [h1, h2]
    rfl

theorem colMapGo_isSome (cols : List CatColumn) (id : Nat)
    (h : ∃ c ∈ cols, c.colID = id) :
    ∀ i, (colMapGo i cols id).isSome = true := by
  induction cols with
  | nil =>
    simp at h
  | cons c cs ih =>
    intro i
    simp only [colMapGo]
    cases heq : colMapGo (i + 1) cs id with
    | some j => simp
    | none =>
      obtain ⟨c0, hc0, hid⟩ := h
      rcases List.mem_cons.mp hc0 with he | hm
      · rw [if_pos (by rw [← he]; exact hid)]
        rfl
      · have h2 := ih ⟨c0, hm, hid⟩ (i + 1)
        rw [heq] at h2
        simp at h2

theorem colMapGo_spec (cols : List CatColumn) (id : Nat) :
    ∀ i j, colMapGo i cols id = some j →
      i ≤ j ∧ ∃ c, cols.get? (j - i) = some c ∧ c.colID = id := by
  induction cols with
  | nil =>
    intro i j h
    simp [colMapGo] at h
  | cons c cs ih =>
    intro i j h
    simp only [colMapGo] at h
    cases heq : colMapGo (i + 1) cs id with
    | some j2 =>
      rw [heq] at h
      simp only [] at h
      injection h with h
      subst h
      obtain ⟨hle, c2, hget, hid⟩ := ih (i + 1) j2 heq
      refine ⟨by omega, c2, ?_, hid⟩
      have hs : j2 - i = (j2 - (i + 1)) + 1 := by omega
      rw [hs]
      simpa using hget
    | none =>
      rw [heq] at h
      simp only [] at h
      by_cases hc : c.colID = id
      · rw [if_pos hc] at h
        injection h with h
        subst h
        exact ⟨Nat.le_refl i, c, by simp, hc⟩
      · rw [if_neg hc] at h
        cases h

theorem nodup_colID_unique (cols : List CatColumn)
    (hnd : (cols.map (fun c => c.colID)).Nodup)
    (j k : Nat) (c c2 : CatColumn)
    (hj : cols.get? j = some c) (hk : cols.get? k = some c2)
    (heq : c.colID = c2.colID) : c = c2 := by
  have hmj : (cols.map (fun c => c.colID)).get? j = some c.colID := by
    rw [List.get?_map, hj]
    rfl
  have hmk : (cols.map (fun c => c.colID)).get? k = some c2.colID := by
    rw [List.get?_map, hk]
    rfl
  have hjlt : j < (cols.map (fun c => c.colID)).length := by
    by_contra hge
    rw [List.get?_eq_none.mpr (by omega)] at hmj
    cases hmj
  have hjk : j = k := by
    apply List.get?_inj hjlt hnd
    rw [hmj, hmk, heq]
  rw [hjk] at hj
  rw [hj] at hk
  injection hk

theorem keyColsNotNull_iff (cols : List CatColumn) (ids : List Nat)
    (hnd : (cols.map (fun c => c.colID)).Nodup)
    (hres : ∀ id ∈ ids, ∃ c ∈ cols, c.colID = id) :
    (keyColsNotNull cols ids = true ↔
      ∀ c ∈ cols, c.colID ∈ ids → c.nullable = false) := by
  unfold keyColsNotNull
  rw [List.all_eq_true]
  constructor
  · intro h c hc hin
    have hx := h c.colID hin
    have hsome := colMapGo_isSome cols c.colID ⟨c, hc, rfl⟩ 0
    obtain ⟨j, hj⟩ := Option.isSome_iff_exists.mp hsome
    obtain ⟨hle, c2, hget, hid⟩ := colMapGo_spec cols c.colID 0 j hj
    rw [Nat.sub_zero] at hget
    have hord : lookupOrdinalD cols c.colID = j := by
      unfold lookupOrdinalD colMapLookup
      rw [hj]
      rfl
    simp only [hord, hget] at hx
    simp at hx
    obtain ⟨k, hk⟩ := List.get?_of_mem hc
    have hcc : c = c2 := nodup_colID_unique cols hnd k j c c2 hk hget hid.symm
    rw [hcc]
    exact hx
  · intro h id hin
    obtain ⟨c, hc, hid⟩ := hres id hin
    have hsome := colMapGo_isSome cols id ⟨c, hc, hid⟩ 0
    obtain ⟨j, hj⟩ := Option.isSome_iff_exists.mp hsome
    obtain ⟨hle, c2, hget, hid2⟩ := colMapGo_spec cols id 0 j hj
    rw [Nat.sub_zero] at hget
    have hord : lookupOrdinalD cols id = j := by
      unfold lookupOrdinalD colMapLookup
      rw [hj]
      rfl
    have hmem : c2 ∈ cols := List.get?_mem hget
    have hnn := h c2 hmem (by rw [hid2]; exact hin)
    simp only [hord, hget]
    simp [hnn]

theorem buildIndexesGo_key_counts (cols1 : List CatColumn) (z : ZoneRef)
    (rest : List IndexDesc) :
    ∀ (i : Nat) (cols : List CatColumn) (oi : OptIndex),
      oi ∈ (buildIndexesGo cols1 z i cols rest).2 →
      oi.numLaxKeyCols = (optIndexKeyCols cols1 oi.idxDesc).1 ∧
      oi.numKeyCols = (optIndexKeyCols cols1 oi.idxDesc).2 := by
  induction rest with
  | nil =>
    intro i cols oi h
    simp [buildIndexesGo] at h
  | cons idx rest ih =>
    intro i cols oi h
    by_cases hinv : idx.inverted = true
    · rw [buildIndexesGo_cons_inv cols1 z i cols idx rest hinv] at h
      rcases List.mem_cons.mp h with he | hm
      · rw [he]
        exact ⟨rfl, rfl⟩
      · exact ih (i + 1) _ oi hm
    · rw [buildIndexesGo_cons_noninv cols1 z i cols idx rest (by simpa using hinv)] at h
      rcases List.mem_cons.mp h with he | hm
      · rw [he]
        exact ⟨rfl, rfl⟩
      · exact ih (i + 1) cols oi hm

/-- C1: for every index of a built non-virtual table whose declared key
column IDs all resolve in the table (and column IDs are not duplicated): if
the index is unique and none of its declared key columns is nullable, then
LaxKeyColumnCount = KeyColumnCount = number of declared key columns; if the
index is unique and at least one declared key column is nullable, then
LaxKeyColumnCount = number of declared key columns and KeyColumnCount =
LaxKeyColumnCount + number of extra key columns; if the index is not
unique, then LaxKeyColumnCount = KeyColumnCount = number of declared key
columns + number of extra key columns. -/
theorem c1_key_column_counts (a : Nat) (d : TableDesc) (s : List StatRef)
    (z : ZoneRef) (oi : OptIndex)
    (hmem : oi ∈ (newOptTable a d s z).indexes)
    (hnd : ((columnsWithSystem d).map (fun c => c.colID)).Nodup)
    (hres : ∀ id ∈ oi.idxDesc.columnIDs, ∃ c ∈ columnsWithSystem d, c.colID = id) :
    (oi.idxDesc.unique = true →
      ((∀ c ∈ columnsWithSystem d,
          c.colID ∈ oi.idxDesc.columnIDs → c.nullable = false) →
        oi.numLaxKeyCols = oi.idxDesc.columnIDs.length ∧
        oi.numKeyCols = oi.idxDesc.columnIDs.length) ∧
      ((∃ c ∈ columnsWithSystem d,
          c.colID ∈ oi.idxDesc.columnIDs ∧ c.nullable = true) →
        oi.numLaxKeyCols = oi.idxDesc.columnIDs.length ∧
        oi.numKeyCols
          = oi.idxDesc.columnIDs.length + oi.idxDesc.extraColumnIDs.length)) ∧
    (oi.idxDesc.unique = false →
      oi.numLaxKeyCols
        = oi.idxDesc.columnIDs.length + oi.idxDesc.extraColumnIDs.length ∧
      oi.numKeyCols = oi.numLaxKeyCols) := by
  rw [newOptTable_indexes] at hmem
  obtain ⟨hlax, hkey⟩ := buildIndexesGo_key_counts (columnsWithSystem d) z
    (d.primaryIndex :: d.indexes) 0 (columnsWithSystem d) oi hmem
  constructor
  · intro hu
    constructor
    · intro hall
      have hnn : keyColsNotNull (columnsWithSystem d) oi.idxDesc.columnIDs = true :=
        (keyColsNotNull_iff _ _ hnd hres).mpr hall
      rw [hlax, hkey]
      unfold optIndexKeyCols
      rw [if_pos hu, if_pos hnn]
      exact ⟨rfl, rfl⟩
    · intro hex
      rw [hlax, hkey]
      unfold optIndexKeyCols
      rw [if_pos hu]
      cases hkc : keyColsNotNull (columnsWithSystem d) oi.idxDesc.columnIDs with
      | true =>
        obtain ⟨c, hc1, hc2, hc3⟩ := hex
        have hz := (keyColsNotNull_iff _ _ hnd hres).mp hkc c hc1 hc2
        rw [hz] at hc3
        cases hc3
      | false =>
        rw [if_neg (by simp [hkc])]
        exact ⟨rfl, rfl⟩
  · intro hu
    rw [hlax, hkey]
    unfold optIndexKeyCols
    rw [if_neg (by simp [hu])]
    exact ⟨rfl, rfl⟩

/-- C1 witness: in the concrete built table, the unique index on the
nullable column b with one implicit extra key column reports
LaxKeyColumnCount 1 and KeyColumnCount 2. -/
theorem c1_key_column_counts_witness :
    exBuiltIdxB.numLaxKeyCols = 1 ∧ exBuiltIdxB.numKeyCols = 2 := by
  have h := c1_key_column_counts 0 exDesc exStats exZone exBuiltIdxB
    (by decide) (by decide) (by decide)
  have h2 := (h.1 (by decide)).2 (by decide)
  have e1 : exBuiltIdxB.idxDesc.columnIDs.length = 1 := by decide
  have e2 : exBuiltIdxB.idxDesc.extraColumnIDs.length = 1 := by decide
  rw [e1, e2] at h2
  exact h2

theorem zoneLoop_cons (prevL prevR : Option ZoneRef) (l r : ZoneRef)
    (ls rs : List ZoneRef) :
    zoneLoop prevL prevR (l :: ls) (r :: rs) =
      (if (prevL.map (fun z => z.ptr)) = some l.ptr ∧
          (prevR.map (fun z => z.ptr)) = some r.ptr then
        zoneLoop prevL prevR ls rs
      else if l.val = r.val then zoneLoop (some l) (some r) ls rs
      else some false) := rfl

theorem zonesEqualSpec_cons (l r : ZoneRef) (ls rs : List ZoneRef) :
    zonesEqualSpec (l :: ls) (r :: rs) =
      (if l.val = r.val then zonesEqualSpec ls rs else some false) := rfl

theorem zoneLoop_eq_spec (ls : List ZoneRef) :
    ∀ (rs : List ZoneRef) (prevL prevR : Option ZoneRef),
      zonesCoherent ls → zonesCoherent rs →
      (∀ p, prevL = some p → ∀ z ∈ ls, z.ptr = p.ptr → z.val = p.val) →
      (∀ p, prevR = some p → ∀ z ∈ rs, z.ptr = p.ptr → z.val = p.val) →
      (∀ p q, prevL = some p → prevR = some q → p.val = q.val) →
      zoneLoop prevL prevR ls rs = zonesEqualSpec ls rs := by
  induction ls with
  | nil =>
    intro rs prevL prevR _ _ _ _ _
    cases rs <;> rfl
  | cons l ls ih =>
    intro rs prevL prevR hcohL hcohR hprevL hprevR hprevEq
    cases rs with
    | nil => rfl
    | cons r rs =>
      have hcohLt : zonesCoherent ls := by
        intro z1 h1 z2 h2
        exact hcohL z1 (List.mem_cons_of_mem l h1) z2 (List.mem_cons_of_mem l h2)
      have hcohRt : zonesCoherent rs := by
        intro z1 h1 z2 h2
        exact hcohR z1 (List.mem_cons_of_mem r h1) z2 (List.mem_cons_of_mem r h2)
      rw [zoneLoop_cons, zonesEqualSpec_cons]
      by_cases hskip : (prevL.map (fun z => z.ptr)) = some l.ptr ∧
          (prevR.map (fun z => z.ptr)) = some r.ptr
      · obtain ⟨hsl, hsr⟩ := hskip
        cases prevL with
        | none => cases hsl
        | some p =>
          cases prevR with
          | none => cases hsr
          | some q =>
            have hpl : p.ptr = l.ptr := by
              simpa using hsl
            have hqr : q.ptr = r.ptr := by
              simpa using hsr
            have hlval : l.val = p.val :=
              hprevL p rfl l (List.mem_cons_self l ls) hpl.symm
            have hrval : r.val = q.val :=
              hprevR q rfl r (List.mem_cons_self r rs) hqr.symm
            have hlr : l.val = r.val := by
              rw [hlval, hrval]
              exact hprevEq p q rfl rfl
            rw [if_pos ⟨hsl, hsr⟩, if_pos hlr]
            refine ih rs (some p) (some q) hcohLt hcohRt ?_ ?_ ?_
            · intro p2 hp2 z hz hptr
              injection hp2 with hp2
              subst hp2
              exact hprevL p rfl z (List.mem_cons_of_mem l hz) hptr
            · intro q2 hq2 z hz hptr
              injection hq2 with hq2
              subst hq2
              exact hprevR q rfl z (List.mem_cons_of_mem r hz) hptr
            · intro p2 q2 hp2 hq2
              injection hp2 with hp2
              injection hq2 with hq2
              subst hp2
              subst hq2
              exact hprevEq p q rfl rfl
      · rw [if_neg hskip]
        by_cases hval : l.val = r.val
        · rw [if_pos hval, if_pos hval]
          refine ih rs (some l) (some r) hcohLt hcohRt ?_ ?_ ?_
          · intro p hp z hz hptr
            injection hp with hp
            subst hp
            exact hcohL z (List.mem_cons_of_mem l hz) l (List.mem_cons_self l ls) hptr
          · intro q hq z hz hptr
            injection hq with hq
            subst hq
            exact hcohR z (List.mem_cons_of_mem r hz) r (List.mem_cons_self r rs) hptr
          · intro p q hp hq
            injection hp with hp
            injection hq with hq
            subst hp
            subst hq
            exact hval
        · rw [if_neg hval, if_neg hval]

theorem zonesEqualSpec_true_iff (ls : List ZoneRef) :
    ∀ rs : List ZoneRef, ls.length = rs.length →
      (zonesEqualSpec ls rs = some true ↔
        List.Forall₂ (fun x y => x.val = y.val) ls rs) := by
  induction ls with
  | nil =>
    intro rs hlen
    cases rs with
    | nil => simp [zonesEqualSpec]
    | cons r rs => simp at hlen
  | cons l ls ih =>
    intro rs hlen
    cases rs with
    | nil => simp at hlen
    | cons r rs =>
      simp only [zonesEqualSpec]
      by_cases hval : l.val = r.val
      · rw [if_pos hval, ih rs (by simpa using hlen)]
        constructor
        · intro h
          exact List.Forall₂.cons hval h
        · intro h
          cases h with
          | cons h1 h2 => exact h2
      · rw [if_neg hval]
        constructor
        · intro h
          cases h
        · intro h
          cases h with
          | cons h1 h2 => exact absurd h1 hval

theorem optTableStatEquals_iff (x y : OptTableStat) :
    optTableStatEquals x y = true ↔
      (x.createdAt = y.createdAt ∧ x.columnOrdinals = y.columnOrdinals) := by
  unfold optTableStatEquals
  by_cases h : x.createdAt ≠ y.createdAt ∨ x.columnOrdinals.length ≠ y.columnOrdinals.length
  · rw [if_pos h]
    constructor
    · intro hf
      cases hf
    · intro hc
      rcases h with h | h
      · exact absurd hc.1 h
      · rw [hc.2] at h
        exact absurd rfl h
  · rw [if_neg h]
    push_neg at h
    simp [h.1]

/-- C4: for any two built non-virtual Table objects (with pointer-coherent
zone references, as every Go heap provides, and equally many indexes),
Equals returns true iff they are the same object, or all of: descriptor IDs
and versions equal; same number of statistics with every pairwise statistic
equal (same creation timestamp and same covered-column-ordinal sequence);
every column user-defined-type version the same; and each index effective
placement deeply equal to its counterpart — the pointer-based skip of the
deep comparison never changes the outcome. -/
theorem c4_table_equals (a b : OptTable)
    (hlen : a.indexes.length = b.indexes.length)
    (hcA : zonesCoherent (a.indexes.map (fun i => i.zone)))
    (hcB : zonesCoherent (b.indexes.map (fun i => i.zone))) :
    (optTableEquals a b = some true ↔
      (a.addr = b.addr ∨
       (a.tdesc.id = b.tdesc.id ∧ a.tdesc.version = b.tdesc.version ∧
        a.stats.length = b.stats.length ∧
        (∀ p ∈ a.stats.zip b.stats,
          p.1.createdAt = p.2.createdAt ∧ p.1.columnOrdinals = p.2.columnOrdinals) ∧
        userDefinedTypeColsHaveSameVersion a.tdesc b.tdesc = true ∧
        List.Forall₂ (fun x y => x.val = y.val)
          (a.indexes.map (fun i => i.zone)) (b.indexes.map (fun i => i.zone))))) := by
  unfold optTableEquals
  by_cases haddr : a.addr = b.addr
  · rw [if_pos haddr]
    simp [haddr]
  · rw [if_neg haddr]
    by_cases hid : a.tdesc.id ≠ b.tdesc.id ∨ a.tdesc.version ≠ b.tdesc.version
    · rw [if_pos hid]
      constructor
      · intro h
        cases h
      · rintro (h | h)
        · exact absurd h haddr
        · rcases hid with hid | hid
          · exact absurd h.1 hid
          · exact absurd h.2.1 hid
    · rw [if_neg hid]
      push_neg at hid
      by_cases hsl : a.stats.length ≠ b.stats.length
      · rw [if_pos hsl]
        constructor
        · intro h
          cases h
        · rintro (h | h)
          · exact absurd h haddr
          · exact absurd h.2.2.1 hsl
      · rw [if_neg hsl]
        push_neg at hsl
        by_cases hst : ¬ ((a.stats.zip b.stats).all
            (fun p => optTableStatEquals p.1 p.2) = true)
        · rw [if_pos hst]
          constructor
          · intro h
            cases h
          · rintro (h | h)
            · exact absurd h haddr
            · refine absurd ?_ hst
              rw [List.all_eq_true]
              intro p hp
              exact (optTableStatEquals_iff p.1 p.2).mpr (h.2.2.2.1 p hp)
        · rw [if_neg hst]
          push_neg at hst
          by_cases hudt : ¬ (userDefinedTypeColsHaveSameVersion a.tdesc b.tdesc = true)
          · rw [if_pos hudt]
            constructor
            · intro h
              cases h
            · rintro (h | h)
              · exact absurd h haddr
              · exact absurd h.2.2.2.2.1 hudt
          · rw [if_neg hudt]
            push_neg at hudt
            rw [zoneLoop_eq_spec (a.indexes.map (fun i => i.zone))
              (b.indexes.map (fun i => i.zone)) none none hcA hcB
              (by intro p hp; cases hp) (by intro p hp; cases hp)
              (by intro p q hp; cases hp)]
            rw [zonesEqualSpec_true_iff (a.indexes.map (fun i => i.zone))
              (b.indexes.map (fun i => i.zone)) (by simpa using hlen)]
            constructor
            · intro h
              refine Or.inr ⟨hid.1, hid.2, hsl, ?_, hudt, h⟩
              intro p hp
              exact (optTableStatEquals_iff p.1 p.2).mp
                ((List.all_eq_true.mp hst) p hp)
            · rintro (h | h)
              · exact absurd h haddr
              · exact h.2.2.2.2.2

/-- C4 witness: the two concrete independently built tables (distinct
object identities) satisfy Equals = true, and the right-hand
characterization holds for them. -/
theorem c4_table_equals_witness : optTableEquals exTable exTable2 = some true := by
  refine (c4_table_equals exTable exTable2 (by decide) ?_ ?_).mpr (Or.inr ?_)
  · intro z1 h1 z2 h2 hp
    have e : exTable.indexes.map (fun i => i.zone) = [exZone, exZone, exZone] := by decide
    rw [e] at h1 h2
    simp only [List.mem_cons, List.not_mem_nil, or_false] at h1 h2
    rcases h1 with h1 | h1 | h1 <;> rcases h2 with h2 | h2 | h2 <;> rw [h1, h2]
  · intro z1 h1 z2 h2 hp
    have e : exTable2.indexes.map (fun i => i.zone) = [exZone, exZone, exZone] := by decide
    rw [e] at h1 h2
    simp only [List.mem_cons, List.not_mem_nil, or_false] at h1 h2
    rcases h1 with h1 | h1 | h1 <;> rcases h2 with h2 | h2 | h2 <;> rw [h1, h2]
  · refine ⟨by decide, by decide, by decide, by decide, by decide, ?_⟩
    have e1 : exTable.indexes.map (fun i => i.zone) = [exZone, exZone, exZone] := by decide
    have e2 : exTable2.indexes.map (fun i => i.zone) = [exZone, exZone, exZone] := by decide
    rw [e1, e2]
    exact List.forall₂_same.mpr (fun x _ => rfl)

/-- C2 witness: at the concrete descriptor (no reserved-name column), the
column at position 3 (after the three real columns) of the built table is
the hidden, nullable system column, and it is the only system column. -/
theorem c2_system_column_witness :
    exTable.columns.get? 3 = some (mvccSystemColumn 3) ∧
    (exTable.columns.filter (fun c => c.kind = ColumnKind.system)).length = 1 :=
  ⟨((c2_system_column 0 exDesc exStats exZone).1 (by decide)).1,
   ((c2_system_column 0 exDesc exStats exZone).1 (by decide)).2.2.2.2.1⟩

end OptCat
